import Mathlib

/-!
Verification development for the Voxa voice-assistant repository
(src/Voxa.py).  The first part embeds the code that is present in the
source file: the album fetcher, the pixmap fetcher, the now-playing
timer callback and the voice-recognition thread.  The second part models
the voice pipeline components (CatalogResolver, OfflineCache,
PlaybackDispatcher) that the specification describes; the source file
only declares them (feature list, sqlite schema), so those definitions
are modelled from the spec, as their doc comments state.
-/

namespace Voxa

/-! ## Part 1: embedding of the code present in src/Voxa.py -/

/-- An album as returned by the Spotify client: its list of image URLs
(Voxa.py:141 accesses `item['track']['album']['images'][0]['url']`). -/
structure Album where
  images : List String
deriving DecidableEq

/-- A track object carrying its album. -/
structure Track where
  album : Album
deriving DecidableEq

/-- One item of `sp.current_user_recently_played(...)['items']`. -/
structure PlayItem where
  track : Track
deriving DecidableEq

/-- `item['track']['album']['images'][0]['url']`: `none` models the
IndexError Python raises when `images` is empty. -/
def firstImageUrl (it : PlayItem) : Option String :=
  it.track.album.images.head?

/-- The list comprehension at Voxa.py:141: it produces one URL per item,
or fails as a whole (IndexError) when some item has no image. -/
def imageUrls : List PlayItem → Option (List String)
  | [] => some []
  | it :: rest =>
    match firstImageUrl it, imageUrls rest with
    | some u, some us => some (u :: us)
    | _, _ => none

/-- The remote call `sp.current_user_recently_played(limit=5)` at
Voxa.py:140: an outage message makes it raise, otherwise the service
honours the limit of 5 and returns the most recent items. -/
def current_user_recently_played (history : List PlayItem) (outage : Option String) :
    Except String (List PlayItem) :=
  match outage with
  | some msg => Except.error msg
  | none => Except.ok (history.take 5)

/-- `MusicApp.fetch_albums` (Voxa.py:138-144): the whole body is inside
`try`; any exception (from the remote call or from the comprehension's
indexing) is logged and the empty list is returned. -/
def MusicApp.fetch_albums (recentlyPlayed : Except String (List PlayItem)) : List String :=
  match recentlyPlayed with
  | Except.error _ => []
  | Except.ok items =>
    match imageUrls items with
    | some urls => urls
    | none => []

/-- An HTTP response as seen by `requests.get`. -/
structure HttpResponse where
  statusCode : Nat
  content : List Nat
deriving DecidableEq

/-- Outcome of `requests.get(url)` at Voxa.py:148: either a response, or
a `requests.exceptions.RequestException` raised at network level. -/
inductive RequestOutcome where
  | success (resp : HttpResponse)
  | requestException (msg : String)
deriving DecidableEq

/-- A QPixmap is modelled by its loaded image data; a null (empty)
pixmap holds no data. -/
def QPixmap := List Nat
deriving DecidableEq

/-- The fresh `QPixmap()` of Voxa.py:150,155: a null pixmap. -/
def QPixmap.empty : QPixmap := ([] : List Nat)

/-- `MusicApp.get_pixmap` (Voxa.py:146-155).  `raise_for_status` raises
`HTTPError` (a `RequestException`) when the status is 400 or above; the
handler catches every `RequestException`, logs it and returns an empty
pixmap.  `loadFromData` is modelled by a decoder that may fail, leaving
the pixmap null. -/
def MusicApp.get_pixmap (decode : List Nat → Option (List Nat)) (outcome : RequestOutcome) :
    QPixmap :=
  match outcome with
  | RequestOutcome.requestException _ => QPixmap.empty
  | RequestOutcome.success r =>
    if 400 ≤ r.statusCode then QPixmap.empty
    else
      match decode r.content with
      | some img => img
      | none => QPixmap.empty

/-- Observable effects of the UI code: console prints and Qt signal
emissions. -/
inductive UiEvent where
  | printed (line : String)
  | signalEmitted (signal : String) (payload : String)
deriving DecidableEq

/-- The track dictionary inside `sp.current_playback()['item']`. -/
structure CurrentTrack where
  trackName : String
  artist : String
deriving DecidableEq

/-- The dictionary returned by `sp.current_playback()`: `item` is absent
when the key `'item'` is missing. -/
structure PlaybackContext where
  item : Option CurrentTrack
deriving DecidableEq

/-- Who caused the current playback state: a voice command or the app
UI.  The code never inspects this. -/
inductive PlaybackInitiator where
  | voiceCommand
  | appUI
deriving DecidableEq

/-- `MusicApp.update_playing_album` (Voxa.py:157-165): on every 5-second
timer tick it prints the now-playing notice whenever a track is
playing. -/
def MusicApp.update_playing_album (current_track : Option PlaybackContext) : List UiEvent :=
  match current_track with
  | none => []
  | some ctx =>
    match ctx.item with
    | none => []
    | some t => [UiEvent.printed ("Currently playing: " ++ t.trackName ++ " by " ++ t.artist)]

/-- The announcements produced by one timer tick.  The initiator of the
playback change is passed in but, exactly as in the code, it is not
consulted: the notice depends only on the playback state. -/
def announcementsOnTick (_initiator : PlaybackInitiator) (current_track : Option PlaybackContext) :
    List UiEvent :=
  MusicApp.update_playing_album current_track

/-- `VoiceRecognitionThread.run` (Voxa.py:180-181): the body is a single
print and nothing else; in particular it never emits `voice_detected`. -/
def VoiceRecognitionThread.run : List UiEvent :=
  [UiEvent.printed "Voice recognition running in background"]

/-- Whether a trace event is an emission of the `voice_detected`
signal (the signal connected to `process_command` at Voxa.py:135). -/
def isVoiceDetectedEmission : UiEvent → Bool
  | UiEvent.signalEmitted s _ => s == "voice_detected"
  | _ => false

/-- The commands handed to `MusicApp.process_command` by a trace: one
per `voice_detected` emission (connection at Voxa.py:135). -/
def voiceCommandsProcessed (trace : List UiEvent) : List String :=
  trace.filterMap fun e =>
    match e with
    | UiEvent.signalEmitted s payload => if s = "voice_detected" then some payload else none
    | _ => none

/-! ## Part 2: the voice pipeline core, modelled from the spec

src/Voxa.py only declares this core: the feature list (Voxa.py:3-26,
notably "Ensures correct artist's song is played" and "Offline Mode")
and the sqlite schema for the offline store (Voxa.py:60).  The
definitions below carry `Modelled from the spec:` doc comments and
follow spec sections 3-7. -/

/-- Modelled from the spec: the case/diacritic folding used by
CatalogResolver matching and by the OfflineCache key normalization
(spec 4.5(a), spec 6 "Offline store"); no normalization code exists in
src.  Maps common accented letters to their base letter. -/
def foldDiacritic (c : Char) : Char :=
  match c with
  | 'á' | 'à' | 'â' | 'ä' | 'ã' | 'å' | 'Á' | 'À' | 'Â' | 'Ä' => 'a'
  | 'é' | 'è' | 'ê' | 'ë' | 'É' | 'È' | 'Ê' | 'Ë' => 'e'
  | 'í' | 'ì' | 'î' | 'ï' | 'Í' | 'Ì' | 'Î' | 'Ï' => 'i'
  | 'ó' | 'ò' | 'ô' | 'ö' | 'õ' | 'Ó' | 'Ò' | 'Ô' | 'Ö' => 'o'
  | 'ú' | 'ù' | 'û' | 'ü' | 'Ú' | 'Ù' | 'Û' | 'Ü' => 'u'
  | 'ñ' | 'Ñ' => 'n'
  | 'ç' | 'Ç' => 'c'
  | other => other

/-- Modelled from the spec: case/diacritic-insensitive normalization of
titles and artist names (spec 4.5(a), spec 6). -/
def normalize (s : String) : String :=
  String.mk (s.data.map fun c => (foldDiacritic c).toLower)

/-- Where a resolved item plays from (spec 3 "CatalogItem"). -/
inductive Source where
  | Remote
  | Offline
deriving DecidableEq

/-- Modelled from the spec: a resolved, addressable playable unit
(spec 3 "CatalogItem": canonical id, title, artist name, album id,
source); absent from src. -/
structure CatalogItem where
  id : Nat
  title : String
  artist : String
  albumId : Nat
  src : Source
deriving DecidableEq

/-- Modelled from the spec: the error kinds of spec section 7; absent
from src. -/
inductive VoxaError where
  | RecognitionTimeout
  | LowConfidence
  | UnrecognizedIntent
  | EntityNotFound
  | AmbiguousEntity
  | RemoteUnavailable
  | OfflineUnsupported
  | NoOutputDevice
  | StaleDispatch
deriving DecidableEq

/-- Modelled from the spec: the edit-distance-based scorer of the fuzzy
matcher (spec 4.5(b)); absent from src.  Standard Levenshtein
distance. -/
def editDistance : List Char → List Char → Nat
  | [], ys => ys.length
  | x :: xs, [] => (x :: xs).length
  | x :: xs, y :: ys =>
    if x = y then editDistance xs ys
    else 1 + min (editDistance xs ys) (min (editDistance (x :: xs) ys) (editDistance xs (y :: ys)))
termination_by xs ys => xs.length + ys.length
decreasing_by all_goals simp_wf <;> omega

/-- Modelled from the spec: the fuzzy score of a candidate against the
requested song span (spec 4.5(b)). -/
def titleDistance (song : String) (c : CatalogItem) : Nat :=
  editDistance (normalize song).data (normalize c.title).data

/-- Modelled from the spec: artist agreement of a candidate with the
extracted Artist span, when one is present (spec 4.5(c)). -/
def artistAgrees (artistSpan : Option String) (c : CatalogItem) : Bool :=
  match artistSpan with
  | none => true
  | some a => decide (normalize c.artist = normalize a)

/-- Modelled from the spec: the candidate filter applied before any
scoring — when an Artist span accompanies the Song span, only items by
that artist survive (spec 4.5(c)). -/
def candidatesFor (artistSpan : Option String) (catalog : List CatalogItem) : List CatalogItem :=
  catalog.filter (artistAgrees artistSpan)

/-- Modelled from the spec: the exact case/diacritic-insensitive title
matches among the candidates (spec 4.5(a)). -/
def exactMatches (song : String) (cands : List CatalogItem) : List CatalogItem :=
  cands.filter fun c => decide (normalize c.title = normalize song)

/-- Modelled from the spec: CatalogResolver's matching algorithm over a
given candidate list (spec 4.5): (a) exact case/diacritic-insensitive
match; (b) otherwise fuzzy edit-distance match, accepting the top
candidate only when it beats the runner-up by more than the confidence
margin (ties are ambiguous) and is within the acceptability bound
`maxDist`; no candidate at all is `EntityNotFound`.  `margin` and
`maxDist` are the tunable thresholds of spec 9. -/
def resolveAgainst (margin maxDist : Nat) (song : String) (artistSpan : Option String)
    (catalog : List CatalogItem) : Except VoxaError CatalogItem :=
  match exactMatches song (candidatesFor artistSpan catalog) with
  | c :: _ => Except.ok c
  | [] =>
    match (candidatesFor artistSpan catalog).argmin (titleDistance song) with
    | none => Except.error VoxaError.EntityNotFound
    | some c =>
      if maxDist < titleDistance song c then Except.error VoxaError.EntityNotFound
      else
        match (((candidatesFor artistSpan catalog).map (titleDistance song)).erase
            (titleDistance song c)).min? with
        | none => Except.ok c
        | some d2 =>
          if titleDistance song c + margin < d2 then Except.ok c
          else Except.error VoxaError.AmbiguousEntity

/-- An OfflineCache row.  Columns follow the sqlite schema of
Voxa.py:60 (`songs (name TEXT, artist TEXT, file_path TEXT)`); the
spec's OfflineCacheEntry calls them title, artist and local-content
locator. -/
structure OfflineCacheEntry where
  title : String
  artist : String
  file_path : String
deriving DecidableEq

/-- Modelled from the spec: whether a row matches the normalized
(title, artist) key (spec 6 "Offline store"); no cache read/write code
exists in src. -/
def keyMatches (e : OfflineCacheEntry) (t a : String) : Bool :=
  decide (normalize e.title = normalize t) && decide (normalize e.artist = normalize a)

/-- The normalized key of a row (spec 3: keys are unique per
(normalized title, normalized artist)). -/
def normKey (e : OfflineCacheEntry) : String × String :=
  (normalize e.title, normalize e.artist)

/-- Modelled from the spec: `lookup(title, artist) -> Entry?` of the
offline store interface (spec 6); absent from src. -/
def lookup (cache : List OfflineCacheEntry) (t a : String) : Option OfflineCacheEntry :=
  cache.find? fun e => keyMatches e t a

/-- Modelled from the spec: `upsert(entry)` of the offline store
interface (spec 6), last-write-wins on an existing (normalized title,
normalized artist) key (spec 3); absent from src. -/
def upsert (cache : List OfflineCacheEntry) (e : OfflineCacheEntry) : List OfflineCacheEntry :=
  if cache.any (fun e2 => keyMatches e2 e.title e.artist) then
    cache.map fun e2 => if keyMatches e2 e.title e.artist then e else e2
  else
    e :: cache

/-- The cache states reachable from the empty store through cache
writes (spec 3: created on successful remote playback). -/
inductive Reachable : List OfflineCacheEntry → Prop where
  | empty : Reachable []
  | write {cache : List OfflineCacheEntry} {e : OfflineCacheEntry} :
      Reachable cache → Reachable (upsert cache e)

/-- The uniqueness invariant: no two rows share a normalized
(title, artist) key. -/
def NodupKeys (cache : List OfflineCacheEntry) : Prop :=
  (cache.map normKey).Nodup

/-- Modelled from the spec: the view of cached rows as offline catalog
items for fallback resolution (spec 4.5: "restricted to cached
entries"); absent from src. -/
def cacheItems (cache : List OfflineCacheEntry) : List CatalogItem :=
  cache.map fun e => CatalogItem.mk 0 e.title e.artist 0 Source.Offline

/-- Modelled from the spec: a full resolution request (spec 4.5): the
remote catalog is used when reachable (`remote = some catalog`),
otherwise the same matching algorithm runs restricted to OfflineCache
entries. -/
def resolveRequest (margin maxDist : Nat) (song : String) (artistSpan : Option String)
    (remote : Option (List CatalogItem)) (cache : List OfflineCacheEntry) :
    Except VoxaError CatalogItem :=
  match remote with
  | some catalog => resolveAgainst margin maxDist song artistSpan catalog
  | none => resolveAgainst margin maxDist song artistSpan (cacheItems cache)

/-- The cache row recording a successfully played item (spec 4.5
write-back). -/
def entryOf (item : CatalogItem) (locator : String) : OfflineCacheEntry :=
  OfflineCacheEntry.mk item.title item.artist locator

/-- Modelled from the spec: successful remote playback writes the
played track back into the OfflineCache (spec 4.5: "Successful remote
resolutions are asynchronously written back into OfflineCache"); absent
from src. -/
def cacheAfterOnlinePlay (cache : List OfflineCacheEntry) (item : CatalogItem)
    (locator : String) : List OfflineCacheEntry :=
  upsert cache (entryOf item locator)

/-- Modelled from the spec: resolving the same raw Entity twice in
sequence against a fixed remote catalog, including the best-effort
cache write-back after the first success (spec 4.5).  Returns both
results. -/
def resolveTwice (margin maxDist : Nat) (song : String) (artistSpan : Option String)
    (remote : Option (List CatalogItem)) (cache : List OfflineCacheEntry) (locator : String) :
    Except VoxaError CatalogItem × Except VoxaError CatalogItem :=
  let r1 := resolveRequest margin maxDist song artistSpan remote cache
  let cache2 :=
    match remote, r1 with
    | some _, Except.ok item => upsert cache (entryOf item locator)
    | _, _ => cache
  (r1, resolveRequest margin maxDist song artistSpan remote cache2)

/-- Modelled from the spec: the Intent variants (spec 3 "Intent");
absent from src. -/
inductive Intent where
  | Play (item : CatalogItem)
  | Pause
  | Resume
  | Skip
  | SetVolume (level : Nat)
  | SetShuffle (enabled : Bool)
  | CreatePlaylist (playlistName : String) (seedItems : List CatalogItem)
  | PairDevice (deviceId : Nat)
  | SetEqualizer (bandValues : List Nat)
deriving DecidableEq

/-- Modelled from the spec: PlaybackDispatcher state — the last
dispatched sequence id plus the observable playback effects (spec 4.6);
absent from src. -/
structure DispatcherState where
  lastSeq : Nat
  playlists : List String
  skipCount : Nat
  volume : Nat
  shuffle : Bool
  announcements : List (String × String)
deriving DecidableEq

/-- A dispatch request: an Intent instance tagged with its sequence id
(spec 4.6: "the dispatcher tracks a monotonically increasing sequence
id per Intent"). -/
structure DispatchRequest where
  seq : Nat
  intent : Intent
deriving DecidableEq

/-- Modelled from the spec: the effect of one Intent on the dispatcher
state (spec 4.6); absent from src. -/
def applyIntent (st : DispatcherState) (i : Intent) : DispatcherState :=
  match i with
  | Intent.Play item => { st with announcements := st.announcements ++ [(item.title, item.artist)] }
  | Intent.Pause => st
  | Intent.Resume => st
  | Intent.Skip => { st with skipCount := st.skipCount + 1 }
  | Intent.SetVolume l => { st with volume := l }
  | Intent.SetShuffle b => { st with shuffle := b }
  | Intent.CreatePlaylist n _ => { st with playlists := st.playlists ++ [n] }
  | Intent.PairDevice _ => st
  | Intent.SetEqualizer _ => st

/-- Modelled from the spec: PlaybackDispatcher.dispatch (spec 4.6): a
request whose sequence id is not strictly greater than the last
dispatched one is rejected as stale with `StaleDispatch` and leaves the
state untouched; otherwise the Intent's effect is applied and the
sequence id recorded. -/
def dispatch (st : DispatcherState) (req : DispatchRequest) :
    DispatcherState × Except VoxaError Unit :=
  if req.seq ≤ st.lastSeq then (st, Except.error VoxaError.StaleDispatch)
  else ({ applyIntent st req.intent with lastSeq := req.seq }, Except.ok ())

/-! ## Helper lemmas about the resolver -/

/-- A candidate is an element of the catalog it was filtered from. -/
theorem mem_candidatesFor_sub {artistSpan : Option String} {catalog : List CatalogItem}
    {c : CatalogItem} (h : c ∈ candidatesFor artistSpan catalog) : c ∈ catalog := by
  unfold candidatesFor at h
  exact List.mem_of_mem_filter h

/-- A candidate surviving the artist filter agrees with the Artist
span. -/
theorem mem_candidatesFor_artist {artistSpan : Option String} {catalog : List CatalogItem}
    {c : CatalogItem} (h : c ∈ candidatesFor artistSpan catalog) (a : String)
    (ha : artistSpan = some a) : normalize c.artist = normalize a := by
  subst ha
  unfold candidatesFor at h
  have hp := (List.mem_filter.mp h).2
  simpa [artistAgrees] using hp

/-- Any item the matching algorithm returns came from its candidate
list. -/
theorem resolveAgainst_ok_mem {margin maxDist : Nat} {song : String} {artistSpan : Option String}
    {catalog : List CatalogItem} {c : CatalogItem}
    (h : resolveAgainst margin maxDist song artistSpan catalog = Except.ok c) :
    c ∈ candidatesFor artistSpan catalog := by
  unfold resolveAgainst at h
  split at h
  · rename_i c' rest heq
    have hc := Except.ok.inj h
    subst hc
    have hmem : c' ∈ exactMatches song (candidatesFor artistSpan catalog) := by
      rw [heq]
      exact List.mem_cons_self _ _
    unfold exactMatches at hmem
    exact List.mem_of_mem_filter hmem
  · rename_i heq0
    split at h
    · exact Except.noConfusion h
    · rename_i c' heq
      have hmem : c' ∈ candidatesFor artistSpan catalog :=
        List.argmin_mem (Option.mem_def.mpr heq)
      split at h
      · exact Except.noConfusion h
      · split at h
        · have hc := Except.ok.inj h
          subst hc
          exact hmem
        · split at h
          · have hc := Except.ok.inj h
            subst hc
            exact hmem
          · exact Except.noConfusion h

/-- The matching algorithm always terminates in a success, an
`EntityNotFound` or an `AmbiguousEntity`. -/
theorem resolveAgainst_cases (margin maxDist : Nat) (song : String) (artistSpan : Option String)
    (catalog : List CatalogItem) :
    (∃ c, resolveAgainst margin maxDist song artistSpan catalog = Except.ok c) ∨
      resolveAgainst margin maxDist song artistSpan catalog
        = Except.error VoxaError.EntityNotFound ∨
      resolveAgainst margin maxDist song artistSpan catalog
        = Except.error VoxaError.AmbiguousEntity := by
  unfold resolveAgainst
  split
  · exact Or.inl ⟨_, rfl⟩
  · split
    · exact Or.inr (Or.inl rfl)
    · split
      · exact Or.inr (Or.inl rfl)
      · split
        · exact Or.inl ⟨_, rfl⟩
        · split
          · exact Or.inl ⟨_, rfl⟩
          · exact Or.inr (Or.inr rfl)

/-- With no candidate at all, the matching algorithm fails with
`EntityNotFound`. -/
theorem resolveAgainst_no_candidates {margin maxDist : Nat} {song : String}
    {artistSpan : Option String} {catalog : List CatalogItem}
    (h : candidatesFor artistSpan catalog = []) :
    resolveAgainst margin maxDist song artistSpan catalog
      = Except.error VoxaError.EntityNotFound := by
  unfold resolveAgainst
  rw [h]
  simp [exactMatches, List.argmin_nil]

/-- Every item of the offline catalog view is marked Offline. -/
theorem cacheItems_src {cache : List OfflineCacheEntry} {c : CatalogItem}
    (h : c ∈ cacheItems cache) : c.src = Source.Offline := by
  unfold cacheItems at h
  obtain ⟨e, _, rfl⟩ := List.mem_map.mp h
  rfl

/-- C1 demo catalog: two same-titled tracks by different artists. -/
def demoCatalog : List CatalogItem :=
  [CatalogItem.mk 1 "Thriller" "Other Artist" 10 Source.Remote,
   CatalogItem.mk 2 "Thriller" "Michael Jackson" 11 Source.Remote]

/-- C1: whenever the raw Entities hold both a Song span and an Artist
span, an item returned by the resolver has an artist name equal,
case/diacritic-insensitively, to the Artist span; otherwise resolution
fails with `EntityNotFound` or `AmbiguousEntity` — a same-titled track
by a different artist is never returned. -/
theorem resolver_artist_guarantee (margin maxDist : Nat) (song artist : String)
    (remote : Option (List CatalogItem)) (cache : List OfflineCacheEntry) :
    (∀ c, resolveRequest margin maxDist song (some artist) remote cache = Except.ok c →
      normalize c.artist = normalize artist) ∧
    ((∃ c, resolveRequest margin maxDist song (some artist) remote cache = Except.ok c) ∨
      resolveRequest margin maxDist song (some artist) remote cache
        = Except.error VoxaError.EntityNotFound ∨
      resolveRequest margin maxDist song (some artist) remote cache
        = Except.error VoxaError.AmbiguousEntity) := by
  constructor
  · intro c hc
    cases remote with
    | some catalog =>
      simp only [resolveRequest] at hc
      exact mem_candidatesFor_artist (resolveAgainst_ok_mem hc) artist rfl
    | none =>
      simp only [resolveRequest] at hc
      exact mem_candidatesFor_artist (resolveAgainst_ok_mem hc) artist rfl
  · cases remote with
    | some catalog =>
      simp only [resolveRequest]
      exact resolveAgainst_cases margin maxDist song (some artist) catalog
    | none =>
      simp only [resolveRequest]
      exact resolveAgainst_cases margin maxDist song (some artist) (cacheItems cache)

/-- C1 witness: on the demo catalog holding two "Thriller" tracks, the
resolved item's artist matches the requested "MICHAEL JACKSON" span. -/
theorem resolver_artist_guarantee_witness :
    normalize (CatalogItem.mk 2 "Thriller" "Michael Jackson" 11 Source.Remote).artist
      = normalize "MICHAEL JACKSON" :=
  (resolver_artist_guarantee 2 3 "thriller" "MICHAEL JACKSON" (some demoCatalog) []).1
    (CatalogItem.mk 2 "Thriller" "Michael Jackson" 11 Source.Remote) (by rfl)

/-- C4 demo cache: one locally cached track. -/
def demoCache1 : List OfflineCacheEntry :=
  [OfflineCacheEntry.mk "Thriller" "Michael Jackson" "thriller.mp3"]

/-- C4: with the remote catalog unreachable, resolution runs the very
same matching algorithm restricted to the OfflineCache entries; any
success returns a cached (Offline) item, a cache with no agreeing
candidate gives `EntityNotFound`, and the outcome is always a success,
`EntityNotFound` or `AmbiguousEntity` (never a hang, never a foreign
item). -/
theorem resolver_offline_fallback (margin maxDist : Nat) (song : String)
    (artistSpan : Option String) (cache : List OfflineCacheEntry) :
    resolveRequest margin maxDist song artistSpan none cache
      = resolveAgainst margin maxDist song artistSpan (cacheItems cache) ∧
    (∀ c, resolveRequest margin maxDist song artistSpan none cache = Except.ok c →
      c ∈ cacheItems cache ∧ c.src = Source.Offline) ∧
    (candidatesFor artistSpan (cacheItems cache) = [] →
      resolveRequest margin maxDist song artistSpan none cache
        = Except.error VoxaError.EntityNotFound) ∧
    ((∃ c, resolveRequest margin maxDist song artistSpan none cache = Except.ok c) ∨
      resolveRequest margin maxDist song artistSpan none cache
        = Except.error VoxaError.EntityNotFound ∨
      resolveRequest margin maxDist song artistSpan none cache
        = Except.error VoxaError.AmbiguousEntity) := by
  refine ⟨rfl, ?_, ?_, ?_⟩
  · intro c hc
    simp only [resolveRequest] at hc
    have hmem := mem_candidatesFor_sub (resolveAgainst_ok_mem hc)
    exact ⟨hmem, cacheItems_src hmem⟩
  · intro h
    simp only [resolveRequest]
    exact resolveAgainst_no_candidates h
  · simp only [resolveRequest]
    exact resolveAgainst_cases margin maxDist song artistSpan (cacheItems cache)

/-- C4 witness: with the remote unreachable and a request no cached
entry can serve, resolution fails with `EntityNotFound`. -/
theorem resolver_offline_fallback_witness :
    resolveRequest 2 3 "Unknown Song" (some "Nobody") none demoCache1
      = Except.error VoxaError.EntityNotFound :=
  (resolver_offline_fallback 2 3 "Unknown Song" (some "Nobody") demoCache1).2.2.1 (by rfl)

/-- C6: resolving the same raw Entity twice against an unchanged remote
catalog — cache write-back after the first success included — yields
the same result both times. -/
theorem resolve_idempotent (margin maxDist : Nat) (song : String) (artistSpan : Option String)
    (remote : Option (List CatalogItem)) (cache : List OfflineCacheEntry) (locator : String) :
    (resolveTwice margin maxDist song artistSpan remote cache locator).2
      = (resolveTwice margin maxDist song artistSpan remote cache locator).1 := by
  cases remote with
  | some catalog =>
    cases h : resolveAgainst margin maxDist song artistSpan catalog with
    | ok c => simp [resolveTwice, resolveRequest, h]
    | error e => simp [resolveTwice, resolveRequest, h]
  | none =>
    cases h : resolveAgainst margin maxDist song artistSpan (cacheItems cache) with
    | ok c => simp [resolveTwice, resolveRequest, h]
    | error e => simp [resolveTwice, resolveRequest, h]

/-! ## Helper lemmas about the offline cache -/

/-- Unfolding of the key test. -/
theorem keyMatches_iff {e : OfflineCacheEntry} {t a : String} :
    keyMatches e t a = true
      ↔ normalize e.title = normalize t ∧ normalize e.artist = normalize a := by
  simp [keyMatches]

/-- Every row matches its own key. -/
theorem keyMatches_self (e : OfflineCacheEntry) : keyMatches e e.title e.artist = true := by
  simp [keyMatches]

/-- Matching keys have equal normalized keys. -/
theorem normKey_eq_of_keyMatches {e1 e2 : OfflineCacheEntry}
    (h : keyMatches e1 e2.title e2.artist = true) : normKey e1 = normKey e2 := by
  obtain ⟨h1, h2⟩ := keyMatches_iff.mp h
  simp [normKey, h1, h2]

/-- Equal normalized keys match. -/
theorem keyMatches_of_normKey_eq {e1 e2 : OfflineCacheEntry}
    (h : normKey e1 = normKey e2) : keyMatches e1 e2.title e2.artist = true := by
  unfold normKey at h
  have h1 := congrArg Prod.fst h
  have h2 := congrArg Prod.snd h
  exact keyMatches_iff.mpr ⟨h1, h2⟩

/-- Replacing every hit of a satisfied predicate by a fixed satisfying
element makes the first hit that element. -/
theorem find?_map_replace {α : Type} (p : α → Bool) (e : α) (hp : p e = true) :
    ∀ l : List α, l.any p = true →
      (l.map fun x => if p x then e else x).find? p = some e := by
  intro l
  induction l with
  | nil => intro h; simp at h
  | cons x xs ih =>
    intro hany
    rw [List.map_cons]
    by_cases hx : p x = true
    · rw [if_pos hx]
      simp [List.find?, hp]
    · have hx' : p x = false := by
        revert hx
        cases p x <;> simp
      rw [if_neg hx]
      simp only [List.find?, hx']
      apply ih
      simp [List.any_cons, hx'] at hany
      exact List.any_eq_true.mpr hany

/-- Last-write-wins: after a write, the lookup of the written key
returns exactly the written row. -/
theorem lookup_upsert (cache : List OfflineCacheEntry) (e : OfflineCacheEntry) :
    lookup (upsert cache e) e.title e.artist = some e := by
  unfold upsert
  split
  · rename_i hany
    unfold lookup
    exact find?_map_replace _ e (keyMatches_self e) cache hany
  · unfold lookup
    simp [List.find?, keyMatches_self]

/-- A write preserves the key-uniqueness invariant. -/
theorem upsert_nodupKeys {cache : List OfflineCacheEntry} {e : OfflineCacheEntry}
    (h : NodupKeys cache) : NodupKeys (upsert cache e) := by
  unfold upsert
  split
  · rename_i hany
    unfold NodupKeys at h ⊢
    have hmap : ((cache.map fun e2 => if keyMatches e2 e.title e.artist then e else e2).map normKey)
        = cache.map normKey := by
      rw [List.map_map]
      apply List.map_congr_left
      intro x hx
      simp only [Function.comp]
      by_cases hk : keyMatches x e.title e.artist = true
      · rw [if_pos hk]
        exact (normKey_eq_of_keyMatches hk).symm
      · rw [if_neg hk]
    rw [hmap]
    exact h
  · rename_i hany
    unfold NodupKeys at h ⊢
    rw [List.map_cons]
    rw [List.nodup_cons]
    refine ⟨?_, h⟩
    intro hmem
    obtain ⟨x, hx, hkey⟩ := List.mem_map.mp hmem
    exact hany (List.any_eq_true.mpr ⟨x, hx, keyMatches_of_normKey_eq hkey⟩)

/-- Every reachable cache state satisfies the key-uniqueness
invariant. -/
theorem reachable_nodupKeys {cache : List OfflineCacheEntry} (h : Reachable cache) :
    NodupKeys cache := by
  induction h with
  | empty => simp [NodupKeys]
  | write _ ih => exact upsert_nodupKeys ih

/-- A successful lookup exhibits a row matching the key. -/
theorem lookup_isSome_any {cache : List OfflineCacheEntry} {t a : String}
    (h : (lookup cache t a).isSome = true) :
    cache.any (fun e2 => keyMatches e2 t a) = true := by
  unfold lookup at h
  obtain ⟨b, hb⟩ := Option.isSome_iff_exists.mp h
  have pb := List.find?_some hb
  have mb : b ∈ cache := List.mem_of_find?_eq_some hb
  exact List.any_eq_true.mpr ⟨b, mb, pb⟩

/-- C2: every reachable OfflineCache state holds at most one row per
normalized (title, artist) key, and writing an existing key replaces
the row — same number of rows, and the lookup of that key now returns
the newly written entry (last-write-wins) — instead of adding a
duplicate. -/
theorem offline_cache_key_unique (cache : List OfflineCacheEntry) (e : OfflineCacheEntry)
    (h : Reachable cache) :
    NodupKeys cache ∧
    ((lookup cache e.title e.artist).isSome = true →
      (upsert cache e).length = cache.length ∧
      lookup (upsert cache e) e.title e.artist = some e) := by
  refine ⟨reachable_nodupKeys h, fun hsome => ⟨?_, lookup_upsert cache e⟩⟩
  have hany := lookup_isSome_any hsome
  unfold upsert
  rw [if_pos hany]
  exact List.length_map _ _

/-- C2 demo rows. -/
def demoEntry1 : OfflineCacheEntry := OfflineCacheEntry.mk "Thriller" "Michael Jackson" "a.mp3"

/-- C2 demo rows. -/
def demoEntry2 : OfflineCacheEntry := OfflineCacheEntry.mk "Bad" "Michael Jackson" "b.mp3"

/-- C2 demo re-cache of an existing key, differing only in case. -/
def demoEntryNew : OfflineCacheEntry := OfflineCacheEntry.mk "THRILLER" "michael jackson" "c.mp3"

/-- A concrete reachable cache state with two rows. -/
def demoReachableCache : List OfflineCacheEntry := upsert (upsert [] demoEntry1) demoEntry2

/-- C2 witness: on a concrete reachable two-row cache, keys are unique
and re-caching "THRILLER" by "michael jackson" replaces the existing
"Thriller" row instead of adding one. -/
theorem offline_cache_key_unique_witness :
    NodupKeys demoReachableCache ∧
      (upsert demoReachableCache demoEntryNew).length = demoReachableCache.length ∧
      lookup (upsert demoReachableCache demoEntryNew) demoEntryNew.title demoEntryNew.artist
        = some demoEntryNew := by
  have h := offline_cache_key_unique demoReachableCache demoEntryNew
    (Reachable.write (Reachable.write Reachable.empty))
  exact ⟨h.1, (h.2 (by rfl)).1, (h.2 (by rfl)).2⟩

/-- C7: after a track is successfully played online — which writes it
back into the OfflineCache — looking it up by its (title, artist) key
succeeds and returns its entry; the lookup reads only the local store,
so a later remote outage does not affect it. -/
theorem play_online_then_lookup (cache : List OfflineCacheEntry) (item : CatalogItem)
    (locator : String) :
    lookup (cacheAfterOnlinePlay cache item locator) item.title item.artist
      = some (entryOf item locator) :=
  lookup_upsert cache (entryOf item locator)

/-- C3: re-dispatching a request with an already-used sequence id is a
no-op: the dispatcher rejects it as `StaleDispatch` and the state —
playlists and skip count included — is exactly the state after the
first dispatch. -/
theorem dispatch_idempotent (st : DispatcherState) (req : DispatchRequest) :
    dispatch (dispatch st req).1 req
      = ((dispatch st req).1, Except.error VoxaError.StaleDispatch) ∧
    (dispatch (dispatch st req).1 req).1.playlists = (dispatch st req).1.playlists ∧
    (dispatch (dispatch st req).1 req).1.skipCount = (dispatch st req).1.skipCount := by
  have hmain : dispatch (dispatch st req).1 req
      = ((dispatch st req).1, Except.error VoxaError.StaleDispatch) := by
    by_cases h : req.seq ≤ st.lastSeq
    · simp [dispatch, h]
    · simp [dispatch, h]
  exact ⟨hmain, by rw [hmain], by rw [hmain]⟩

/-! ## Theorems about the code present in src/Voxa.py -/

/-- The comprehension yields one URL per recently played item. -/
theorem imageUrls_length : ∀ (l : List PlayItem) (us : List String),
    imageUrls l = some us → us.length = l.length := by
  intro l
  induction l with
  | nil =>
    intro us h
    unfold imageUrls at h
    injection h with h2
    subst h2
    rfl
  | cons it rest ih =>
    intro us h
    unfold imageUrls at h
    split at h
    · rename_i u us' heq1 heq2
      injection h with h2
      subst h2
      simp only [List.length_cons]
      rw [ih us' heq2]
    · exact Option.noConfusion h

/-- C8: `MusicApp.fetch_albums` never propagates an exception: when the
recently-played query raises, the exception is caught, logged and the
empty list returned; on success the result holds at most 5 album image
URLs (the query is issued with limit 5). -/
theorem fetch_albums_no_exception (history : List PlayItem) (outage : Option String) :
    (MusicApp.fetch_albums (current_user_recently_played history outage)).length ≤ 5 ∧
    (∀ msg, outage = some msg →
      MusicApp.fetch_albums (current_user_recently_played history outage) = []) := by
  constructor
  · cases outage with
    | some msg => simp [current_user_recently_played, MusicApp.fetch_albums]
    | none =>
      simp only [current_user_recently_played, MusicApp.fetch_albums]
      cases hiu : imageUrls (history.take 5) with
      | none => simp
      | some urls =>
        have hlen := imageUrls_length _ _ hiu
        simp only [hlen, List.length_take]
        exact min_le_left 5 _
  · intro msg hmsg
    subst hmsg
    simp [current_user_recently_played, MusicApp.fetch_albums]

/-- C8 demo history with one recently played item. -/
def demoHistory : List PlayItem :=
  [PlayItem.mk (Track.mk (Album.mk ["http://img/a.jpg"]))]

/-- C8 witness: when the remote query raises, `fetch_albums` returns
the empty list. -/
theorem fetch_albums_no_exception_witness :
    MusicApp.fetch_albums (current_user_recently_played demoHistory (some "API rate limit")) = [] :=
  (fetch_albums_no_exception demoHistory (some "API rate limit")).2 "API rate limit" rfl

/-- C9: `MusicApp.get_pixmap` never propagates a network error: any
`requests.RequestException` — a network-level failure, or the
`HTTPError` that `raise_for_status` raises on a status of 400 or
above — is logged and an empty `QPixmap` returned. -/
theorem get_pixmap_handles_request_errors (decode : List Nat → Option (List Nat)) :
    (∀ msg, MusicApp.get_pixmap decode (RequestOutcome.requestException msg) = QPixmap.empty) ∧
    (∀ r, 400 ≤ r.statusCode →
      MusicApp.get_pixmap decode (RequestOutcome.success r) = QPixmap.empty) := by
  constructor
  · intro msg
    rfl
  · intro r hr
    simp [MusicApp.get_pixmap, hr]

/-- C9 witness: a 404 response yields the empty pixmap. -/
theorem get_pixmap_handles_request_errors_witness :
    MusicApp.get_pixmap (fun _ => none) (RequestOutcome.success (HttpResponse.mk 404 []))
      = QPixmap.empty :=
  (get_pixmap_handles_request_errors (fun _ => none)).2 (HttpResponse.mk 404 []) (by decide)

/-- C10: `VoiceRecognitionThread.run` never emits `voice_detected`, so
the connected `MusicApp.process_command` slot is never invoked through
the voice pipeline: no voice command is ever recognized or
dispatched. -/
theorem voice_pipeline_inert :
    VoiceRecognitionThread.run.any isVoiceDetectedEmission = false ∧
    voiceCommandsProcessed VoiceRecognitionThread.run = [] := by
  exact ⟨rfl, rfl⟩

/-- C5: evaluating the code at an app-UI-initiated playback change:
`update_playing_album` emits the now-playing notice on the 5-second
timer tick although the change was not voice-initiated — the code never
consults the initiator — contradicting the announce-only-on-voice
requirement (and the source's own header comment, Voxa.py:7). -/
theorem announcement_on_ui_initiated_playback :
    announcementsOnTick PlaybackInitiator.appUI
        (some (PlaybackContext.mk (some (CurrentTrack.mk "Thriller" "Michael Jackson"))))
      = [UiEvent.printed "Currently playing: Thriller by Michael Jackson"] ∧
    announcementsOnTick PlaybackInitiator.appUI
        (some (PlaybackContext.mk (some (CurrentTrack.mk "Thriller" "Michael Jackson")))) ≠ [] := by
  exact ⟨rfl, by decide⟩

end Voxa
